import Mathlib

/-!
Shallow embedding of the streaming session relay of the n8n dashboard
backend: `SSEManager` (sseService), `WebhookService` (webhookService) and
`N8nService.triggerWebhook` (n8nService), together with the slice of the
database state (`log_sessions`, `log_entries`) that these services touch.

JavaScript `Map` objects are embedded as association lists with the keys
kept unique (insertion order preserved, as in the runtime); `Set<Response>`
becomes a duplicate-free list of `Client` values; the database is an
append-only trace of the INSERT/UPDATE statements the services execute.
Asynchronous I/O outcomes (HTTP responses, `EventSource` construction,
JSON.parse results) enter the model as explicit parameters.
-/

namespace N8nDashboard

/-- Operations of a JavaScript `Map String α`: `mapGet` is `Map.get`. -/
def mapGet {α : Type} (m : List (String × α)) (k : String) : Option α :=
  match m with
  | [] => none
  | (k', v) :: rest => if k' = k then some v else mapGet rest k

/-- Operation `Map.set`: overwrite in place if the key exists, else append. -/
def mapSet {α : Type} (m : List (String × α)) (k : String) (v : α) :
    List (String × α) :=
  match m with
  | [] => [(k, v)]
  | (k', v') :: rest =>
    if k' = k then (k, v) :: rest else (k', v') :: mapSet rest k v

/-- Operation `Map.delete`: remove the entry with the given key. -/
def mapDelete {α : Type} (m : List (String × α)) (k : String) :
    List (String × α) :=
  match m with
  | [] => []
  | (k', v') :: rest =>
    if k' = k then mapDelete rest k else (k', v') :: mapDelete rest k

/-- Log type enum of `src/types/log.types.ts`. -/
inductive LogType
  | Info
  | Success
  | Error
  | Control
deriving DecidableEq, Repr

/-- String value of each enum member, as declared in `log.types.ts`. -/
def LogType.val : LogType → String
  | .Info => "Info"
  | .Success => "Success"
  | .Error => "Error"
  | .Control => "Control"

/-- Value list `Object.values(LogType)` used by the forwarding check in
`SSEManager.connectToN8nStream`. -/
def logTypeValues : List String :=
  [LogType.Info.val, LogType.Success.val, LogType.Error.val, LogType.Control.val]

/-- Decoded result of `JSON.parse(event.data)` on an upstream n8n event,
restricted to the two fields the handler reads.  A field whose value is
absent (or not the string compared against) is `none`. -/
structure N8nMsg where
  type : Option String
  message : Option String
deriving DecidableEq, Repr

/-- Payload written to a subscriber channel by `sendEvent`.  `forwarded`
is the parsed upstream object passed through verbatim
(`this.broadcast(sessionId, 'log', data)`); the other constructors are the
object literals built inside `sseService.ts`. -/
inductive SSEData
  | logEvent (type : String) (message : String)
  | statusObj (status : String)
  | messageObj (message : String)
  | heartbeatObj
  | forwarded (data : N8nMsg)
deriving DecidableEq, Repr

/-- Subscriber channel (an Express `Response`).  `writeFails` records
whether `res.write` throws for this client. -/
structure Client where
  id : Nat
  writeFails : Bool
deriving DecidableEq, Repr

/-- One successful channel write performed by `sendEvent`. -/
structure Delivery where
  clientId : Nat
  eventType : String
  data : SSEData
deriving DecidableEq, Repr

/-- In-memory state of the `SSEManager` singleton: the two private maps,
plus the trace of `EventSource.close()` calls issued so far (each upstream
`EventSource` is identified by a numeric handle). -/
structure SSEState where
  connections : List (String × List Client)
  n8nConnections : List (String × Nat)
  closedSources : List Nat
deriving DecidableEq, Repr

/-- Operation `SSEManager.sendEvent`: one `res.write` guarded by
try/catch, so a throwing channel yields no delivery and no propagated
error. -/
def sendEvent (c : Client) (eventType : String) (data : SSEData) :
    List Delivery :=
  if c.writeFails then [] else [⟨c.id, eventType, data⟩]

/-- Operation `SSEManager.broadcast`: look up the session's clients; if
none (or the set is empty) return silently, else `forEach` client gets
`sendEvent`.  The maps are read but never written. -/
def broadcast (st : SSEState) (sessionId : String) (eventType : String)
    (data : SSEData) : List Delivery :=
  match mapGet st.connections sessionId with
  | none => []
  | some clients =>
    if clients.length = 0 then []
    else clients.flatMap (fun c => sendEvent c eventType data)

/-- JavaScript `Set.add`: append only when absent. -/
def setAdd (clients : List Client) (c : Client) : List Client :=
  if c ∈ clients then clients else clients ++ [c]

/-- JavaScript `Set.delete`: drop the element if present. -/
def setDelete (clients : List Client) (c : Client) : List Client :=
  match clients with
  | [] => []
  | x :: rest => if x = c then rest else x :: setDelete rest c

/-- Operation `SSEManager.subscribe`: register the channel (creating the
session entry when absent) and send the synthetic `connected` event to
that channel only.  The heartbeat timer is real-time machinery outside
the state model. -/
def subscribe (st : SSEState) (sessionId : String) (c : Client) :
    SSEState × List Delivery :=
  let clients :=
    match mapGet st.connections sessionId with
    | none => [c]
    | some existing => setAdd existing c
  ({ st with connections := mapSet st.connections sessionId clients },
   sendEvent c "connected" (SSEData.messageObj "Connected to log stream"))

/-- Operation `SSEManager.unsubscribe`: remove the channel from the
session's set; if the set becomes empty, delete the session's entry. -/
def unsubscribe (st : SSEState) (sessionId : String) (c : Client) :
    SSEState :=
  match mapGet st.connections sessionId with
  | none => st
  | some clients =>
    let clients' := setDelete clients c
    if clients'.length = 0 then
      { st with connections := mapDelete st.connections sessionId }
    else
      { st with connections := mapSet st.connections sessionId clients' }

/-- Operation `SSEManager.getActiveSessionCount`: `this.connections.size`. -/
def getActiveSessionCount (st : SSEState) : Nat :=
  st.connections.length

/-- Operation `SSEManager.getSessionClientCount`. -/
def getSessionClientCount (st : SSEState) (sessionId : String) : Nat :=
  match mapGet st.connections sessionId with
  | none => 0
  | some clients => clients.length

/-- Operation `SSEManager.stopN8nStream`: close and remove the upstream
`EventSource` when one is registered; silently return otherwise. -/
def stopN8nStream (st : SSEState) (sessionId : String) : SSEState :=
  match mapGet st.n8nConnections sessionId with
  | none => st
  | some es =>
    { st with
      n8nConnections := mapDelete st.n8nConnections sessionId,
      closedSources := st.closedSources ++ [es] }

/-- Operation `SSEManager.connectToN8nStream`, synchronous part: construct
the `EventSource` (the outcome of `new EventSource(url)` is the
`newSource` parameter, caught by the surrounding try/catch on failure) and
store it under the session id with `Map.set` — no existence check is
performed before the `set`. -/
def connectToN8nStream (st : SSEState) (sessionId : String)
    (newSource : Except String Nat) : Except String SSEState :=
  match newSource with
  | .error _ => .error "Failed to establish connection to workflow stream"
  | .ok es =>
    .ok { st with n8nConnections := mapSet st.n8nConnections sessionId es }

/-- Handler `eventSource.onopen` installed by `connectToN8nStream`. -/
def onopenEffects (st : SSEState) (sessionId : String) :
    SSEState × List Delivery :=
  (st,
   broadcast st sessionId "log"
     (SSEData.logEvent LogType.Success.val "Connected to agent workflow stream"))

/-- Guard `Object.values(LogType).includes(data.type)` of the forwarding
branch (false when `data.type` is absent). -/
def isForwardableType (t : Option String) : Bool :=
  match t with
  | some s => logTypeValues.contains s
  | none => false

/-- Forwarding tail of the `onmessage` handler: broadcast the parsed
object verbatim as a `log` event when its `type` is a `LogType` value. -/
def forwardLog (st : SSEState) (sessionId : String) (data : N8nMsg) :
    SSEState × List Delivery :=
  if isForwardableType data.type then
    (st, broadcast st sessionId "log" (SSEData.forwarded data))
  else
    (st, [])

/-- Handler `eventSource.onmessage` installed by `connectToN8nStream` for
the `EventSource` with handle `es`.  `parsed` is the outcome of
`JSON.parse(event.data)` (`none` when it throws, in which case the catch
branch broadcasts a synthetic Error log built from the raw payload).
A parsed object with `type === 'control'` and message COMPLETE/ERROR
broadcasts the corresponding terminal object, closes the source and drops
it from the map; any other object falls through to the forwarding check. -/
def onmessageEffects (st : SSEState) (sessionId : String) (es : Nat)
    (raw : String) (parsed : Option N8nMsg) : SSEState × List Delivery :=
  match parsed with
  | none =>
    (st,
     broadcast st sessionId "log"
       (SSEData.logEvent LogType.Error.val ("Failed to parse event: " ++ raw)))
  | some data =>
    if data.type = some "control" then
      if data.message = some "COMPLETE" then
        ({ st with
           n8nConnections := mapDelete st.n8nConnections sessionId,
           closedSources := st.closedSources ++ [es] },
         broadcast st sessionId "complete" (SSEData.statusObj "Completed"))
      else if data.message = some "ERROR" then
        ({ st with
           n8nConnections := mapDelete st.n8nConnections sessionId,
           closedSources := st.closedSources ++ [es] },
         broadcast st sessionId "error" (SSEData.messageObj "Workflow failed"))
      else
        forwardLog st sessionId data
    else
      forwardLog st sessionId data

/-- Handler `eventSource.onerror` installed by `connectToN8nStream`:
broadcast one synthetic Error log, close the source, drop it from the
map. -/
def onerrorEffects (st : SSEState) (sessionId : String) (es : Nat) :
    SSEState × List Delivery :=
  ({ st with
     n8nConnections := mapDelete st.n8nConnections sessionId,
     closedSources := st.closedSources ++ [es] },
   broadcast st sessionId "log"
     (SSEData.logEvent LogType.Error.val
       "Lost connection to workflow. The workflow may continue running on n8n."))

/-- Slice of the database the relay services touch, kept as the rows
inserted into `log_sessions` (id with its INSERT-time status), the trace
of UPDATE statements run against `log_sessions.status` (each also sets
`completed_at = NOW()`), and the rows appended to `log_entries`
(session id, log type, message). -/
structure DbState where
  sessions : List (String × String)
  statusWrites : List (String × String)
  logEntries : List (String × String × String)
deriving DecidableEq, Repr

/-- Status a session row holds after the recorded writes: the last UPDATE
against it when one exists, else its INSERT-time status. -/
def sessionFinalStatus (db : DbState) (sessionId : String) : Option String :=
  let writes := db.statusWrites.filterMap
    (fun p => if p.1 = sessionId then some p.2 else none)
  match writes.getLast? with
  | some s => some s
  | none => mapGet db.sessions sessionId

/-- Combined in-process plus stored state of the relay. -/
structure SystemState where
  sse : SSEState
  db : DbState
deriving DecidableEq, Repr

/-- Operation `WebhookService.createLogEntry`: one INSERT into
`log_entries`; a database error is caught and logged, never thrown. -/
def createLogEntry (db : DbState) (sessionId : String) (logType : String)
    (message : String) : DbState :=
  { db with logEntries := db.logEntries ++ [(sessionId, logType, message)] }

/-- Operation `WebhookService.updateSessionStatus`: one unconditional
UPDATE of `log_sessions.status` (and `completed_at`); a database error is
caught and logged, never thrown. -/
def updateSessionStatus (db : DbState) (sessionId : String)
    (status : String) : DbState :=
  { db with statusWrites := db.statusWrites ++ [(sessionId, status)] }

/-- Operation `WebhookService.stopAgentRun`: stop the upstream stream if
any, then unconditionally write the `Cancelled` status and the
user-cancellation log entry.  None of the three steps throws, so the
catch branch (`Failed to stop agent run`) is unreachable. -/
def stopAgentRun (sys : SystemState) (sessionId : String) : SystemState :=
  let sse := stopN8nStream sys.sse sessionId
  let db := updateSessionStatus sys.db sessionId "Cancelled"
  let db := createLogEntry db sessionId "Info" "Agent run cancelled by user"
  { sse := sse, db := db }

/-- System-wide effect of one raw upstream event arriving for a session:
the only code the process runs is the `onmessage` handler registered in
`SSEManager.connectToN8nStream`, which contains no database access, so
the stored state passes through unchanged. -/
def processUpstreamMessage (sys : SystemState) (sessionId : String)
    (es : Nat) (raw : String) (parsed : Option N8nMsg) :
    SystemState × List Delivery :=
  let r := onmessageEffects sys.sse sessionId es raw parsed
  ({ sse := r.1, db := sys.db }, r.2)

/-- System-wide effect of a transport-level error on the upstream link:
the only code the process runs is the `onerror` handler registered in
`SSEManager.connectToN8nStream`, which contains no database access, so
the stored state passes through unchanged. -/
def processUpstreamError (sys : SystemState) (sessionId : String)
    (es : Nat) : SystemState × List Delivery :=
  let r := onerrorEffects sys.sse sessionId es
  ({ sse := r.1, db := sys.db }, r.2)

/-- Body of an HTTP response from the n8n webhook, restricted to the one
field `triggerWebhook` validates: `sseUrl` is `some u` exactly when the
field is present with a string value `u`. -/
structure N8nResponseData where
  sseUrl : Option String
deriving DecidableEq, Repr

/-- Outcome of `axiosInstance.post`: a resolved response (whose body may
be missing), or a rejected promise with an axios error carrying a message
and an optional HTTP status. -/
inductive HttpOutcome
  | resolved (data : Option N8nResponseData)
  | axiosError (message : String) (status : Option Nat)
deriving DecidableEq, Repr

/-- Message of the error thrown when the response lacks a string `sseUrl`. -/
def invalidResponseMsg : String :=
  "Invalid n8n response: Missing sseUrl field. Ensure your n8n workflow returns \x7b \"sseUrl\": \"...\" \x7d"

/-- Validation step of `N8nService.triggerWebhook`: require a body with a
string `sseUrl` field, else throw `invalidResponseMsg`. -/
def validateSseUrl (data : Option N8nResponseData) : Except String String :=
  match data with
  | none => .error invalidResponseMsg
  | some rd =>
    match rd.sseUrl with
    | none => .error invalidResponseMsg
    | some u => .ok u

/-- Operation `N8nService.triggerWebhook`: POST to the webhook, validate
the body.  The catch block wraps an axios rejection into a message with
the HTTP status, while any other thrown error — including the
`invalidResponseMsg` one — is replaced by the generic
`Failed to trigger n8n webhook`. -/
def triggerWebhook (out : HttpOutcome) : Except String String :=
  match out with
  | .resolved data =>
    match validateSseUrl data with
    | .ok u => .ok u
    | .error _ => .error "Failed to trigger n8n webhook"
  | .axiosError m s =>
    .error ("Failed to trigger n8n webhook: " ++ m ++ " (Status: " ++
      (match s with | some n => toString n | none => "N/A") ++ ")")

/-- Operation `WebhookService.triggerAgent`.  External outcomes enter as
parameters: `agentFound` (the CRUD lookup), `insertResult` (the RETURNING
id of the `log_sessions` INSERT, `none` when the insert yields no row),
`webhook` (the HTTP call) and `newSource` (the `EventSource`
construction inside `connectToN8nStream`).  On the happy path the agent
status/last-run updates precede the stream connection and the initial
log entry is written last; every thrown error is logged and re-thrown by
the surrounding catch, leaving the session row in its INSERT-time
`Running` status. -/
def triggerAgent (sys : SystemState) (agentFound : Bool)
    (agentName : String) (insertResult : Option String)
    (webhook : HttpOutcome) (newSource : Except String Nat) :
    SystemState × Except String (String × String) :=
  if agentFound = false then
    (sys, .error "Agent not found")
  else
    match insertResult with
    | none => (sys, .error "Failed to create log session")
    | some sessionId =>
      let db := { sys.db with
        sessions := sys.db.sessions ++ [(sessionId, "Running")] }
      match triggerWebhook webhook with
      | .error e => ({ sys with db := db }, .error e)
      | .ok _sseUrl =>
        match connectToN8nStream sys.sse sessionId newSource with
        | .error e => ({ sse := sys.sse, db := db }, .error e)
        | .ok sse =>
          let db := createLogEntry db sessionId "Info"
            ("Webhook triggered successfully for agent \"" ++ agentName ++ "\"")
          ({ sse := sse, db := db },
           .ok (sessionId, "/api/sse/stream/" ++ sessionId))

/-- Map lookup after `mapSet` at the same key yields the new value. -/
theorem mapGet_mapSet_self {α : Type} (m : List (String × α)) (k : String)
    (v : α) : mapGet (mapSet m k v) k = some v := by
  induction m with
  | nil => simp [mapSet, mapGet]
  | cons p rest ih =>
    obtain ⟨k', v'⟩ := p
    by_cases h : k' = k <;> simp [mapSet, mapGet, h, ih]

/-- Map lookup after `mapDelete` at the same key yields nothing. -/
theorem mapGet_mapDelete_self {α : Type} (m : List (String × α))
    (k : String) : mapGet (mapDelete m k) k = none := by
  induction m with
  | nil => simp [mapDelete, mapGet]
  | cons p rest ih =>
    obtain ⟨k', v'⟩ := p
    by_cases h : k' = k <;> simp [mapDelete, mapGet, h, ih]

/-- Entries of `mapSet m k v` come from the new pair or from `m`. -/
theorem mem_mapSet {α : Type} {m : List (String × α)} {k : String} {v : α}
    {p : String × α} (hp : p ∈ mapSet m k v) : p = (k, v) ∨ p ∈ m := by
  induction m with
  | nil => simpa [mapSet] using hp
  | cons q rest ih =>
    obtain ⟨k', v'⟩ := q
    by_cases h : k' = k
    · simp [mapSet, h] at hp
      rcases hp with hp | hp
      · exact Or.inl hp
      · exact Or.inr (List.mem_cons_of_mem _ hp)
    · simp [mapSet, h] at hp
      rcases hp with hp | hp
      · exact Or.inr (by simp [hp])
      · rcases ih hp with hp' | hp'
        · exact Or.inl hp'
        · exact Or.inr (List.mem_cons_of_mem _ hp')

/-- Entries of `mapDelete m k` come from `m`. -/
theorem mem_mapDelete {α : Type} {m : List (String × α)} {k : String}
    {p : String × α} (hp : p ∈ mapDelete m k) : p ∈ m := by
  induction m with
  | nil => simp [mapDelete] at hp
  | cons q rest ih =>
    obtain ⟨k', v'⟩ := q
    by_cases h : k' = k
    · simp [mapDelete, h] at hp
      exact List.mem_cons_of_mem _ (ih hp)
    · simp [mapDelete, h] at hp
      rcases hp with hp | hp
      · simp [hp]
      · exact List.mem_cons_of_mem _ (ih hp)

/-- Map lookup over an appended list falls through to the tail when the
key is absent from the head. -/
theorem mapGet_append_of_none {α : Type} {m₁ : List (String × α)}
    (m₂ : List (String × α)) {k : String} (h : mapGet m₁ k = none) :
    mapGet (m₁ ++ m₂) k = mapGet m₂ k := by
  induction m₁ with
  | nil => simp
  | cons p rest ih =>
    obtain ⟨k', v'⟩ := p
    by_cases hk : k' = k
    · simp [mapGet, hk] at h
    · simp [mapGet, hk] at h ⊢
      exact ih h

/-- Client with a working channel receives the broadcast payload once it
is in the looked-up set, whatever happens on the other channels. -/
theorem mem_flatMap_sendEvent {clients : List Client} {c : Client}
    (eventType : String) (data : SSEData) (hc : c ∈ clients)
    (hf : c.writeFails = false) :
    (⟨c.id, eventType, data⟩ : Delivery) ∈
      clients.flatMap (fun x => sendEvent x eventType data) :=
  List.mem_flatMap.mpr ⟨c, hc, by simp [sendEvent, hf]⟩

/-- Every delivery a fan-out produces writes exactly the broadcast event,
to one of the listed clients. -/
theorem flatMap_sendEvent_shape {clients : List Client}
    (eventType : String) (data : SSEData) {d : Delivery}
    (hd : d ∈ clients.flatMap (fun x => sendEvent x eventType data)) :
    d.eventType = eventType ∧ d.data = data ∧
      d.clientId ∈ clients.map Client.id := by
  rcases List.mem_flatMap.mp hd with ⟨x, hx, hdx⟩
  by_cases h : x.writeFails <;> simp [sendEvent, h] at hdx
  subst hdx
  exact ⟨rfl, rfl, List.mem_map.mpr ⟨x, hx, rfl⟩⟩

/-- Fan-out over clients none of which carries the given id delivers
nothing to that id. -/
theorem flatMap_sendEvent_filter_nil {clients : List Client} {i : Nat}
    (eventType : String) (data : SSEData)
    (h : ∀ a ∈ clients, a.id ≠ i) :
    (clients.flatMap (fun x => sendEvent x eventType data)).filter
      (fun d => d.clientId = i) = [] := by
  refine List.filter_eq_nil_iff.mpr ?_
  intro d hd
  rcases List.mem_flatMap.mp hd with ⟨x, hx, hdx⟩
  by_cases hw : x.writeFails <;> simp [sendEvent, hw] at hdx
  subst hdx
  simpa using h x hx

/-- Fan-out delivers exactly one event to a working client that occurs
exactly once in the set, whatever the other channels do. -/
theorem flatMap_sendEvent_filter_single {clients : List Client}
    {c : Client} (eventType : String) (data : SSEData)
    (hc : clients.filter (fun x => x.id = c.id) = [c])
    (hf : c.writeFails = false) :
    (clients.flatMap (fun x => sendEvent x eventType data)).filter
      (fun d => d.clientId = c.id) = [⟨c.id, eventType, data⟩] := by
  induction clients with
  | nil => simp at hc
  | cons x rest ih =>
    by_cases hx : x.id = c.id
    · rw [List.filter_cons_of_pos (by simpa using hx)] at hc
      have hx2 : x = c := (List.cons_eq_cons.mp hc).1
      have hrest : rest.filter (fun y => y.id = c.id) = [] :=
        (List.cons_eq_cons.mp hc).2
      have hrest' : ∀ a ∈ rest, a.id ≠ c.id := by
        intro a ha
        simpa using List.filter_eq_nil_iff.mp hrest a ha
      subst hx2
      rw [List.flatMap_cons, List.filter_append,
        flatMap_sendEvent_filter_nil eventType data hrest']
      simp [sendEvent, hf]
    · rw [List.filter_cons_of_neg (by simpa using hx)] at hc
      have hxnil : (sendEvent x eventType data).filter
          (fun d => d.clientId = c.id) = [] := by
        by_cases hw : x.writeFails <;> simp [sendEvent, hw, hx]
      simp [List.flatMap_cons, List.filter_append, hxnil, ih hc]

/-- Relay state used to exercise claim C1: one working subscriber (id 7)
and one upstream link for session `s1`, empty database traces. -/
def c1Sys : SystemState :=
  { sse := { connections := [("s1", [⟨7, false⟩])],
             n8nConnections := [("s1", 1)], closedSources := [] },
    db := { sessions := [("s1", "Running")], statusWrites := [],
            logEntries := [] } }

/-- C1, as stated, is false: an `Info` log event arriving from upstream
for session `s1` is broadcast to the attached subscriber but nothing is
written to `log_entries` — the `onmessage` handler contains no
persistence call. -/
theorem c1_counterexample :
    (processUpstreamMessage c1Sys "s1" 1 "raw"
        (some ⟨some "Info", some "step one"⟩)).2
      = [⟨7, "log", SSEData.forwarded ⟨some "Info", some "step one"⟩⟩] ∧
    (processUpstreamMessage c1Sys "s1" 1 "raw"
        (some ⟨some "Info", some "step one"⟩)).1.db.logEntries = [] :=
  ⟨rfl, rfl⟩

/-- C1 amended: every decoded upstream event whose type is one of the
`LogType` values is broadcast verbatim through the Subscriber Registry
(the broadcast is issued whether or not subscribers are attached), and
nothing else happens — in particular the event is not persisted and the
whole system state is unchanged. -/
theorem c1_classified_events_broadcast_not_persisted (sys : SystemState)
    (sessionId : String) (es : Nat) (raw : String) (t m : String)
    (ht : t ∈ logTypeValues) :
    processUpstreamMessage sys sessionId es raw (some ⟨some t, some m⟩)
      = (sys, broadcast sys.sse sessionId "log"
          (SSEData.forwarded ⟨some t, some m⟩)) := by
  simp only [logTypeValues, LogType.val, List.mem_cons,
    List.not_mem_nil, or_false] at ht
  rcases ht with rfl | rfl | rfl | rfl <;> rfl

/-- Witness for C1 at type `Info`: the hypothesis holds and the broadcast
with no persistence is observed on the concrete state. -/
theorem c1_classified_events_broadcast_not_persisted_witness :
    "Info" ∈ logTypeValues ∧
    processUpstreamMessage c1Sys "s1" 1 "raw"
        (some ⟨some "Info", some "one"⟩)
      = (c1Sys, broadcast c1Sys.sse "s1" "log"
          (SSEData.forwarded ⟨some "Info", some "one"⟩)) :=
  ⟨by decide,
   c1_classified_events_broadcast_not_persisted c1Sys "s1" 1 "raw"
     "Info" "one" (by decide)⟩

/-- Relay state used to exercise claim C2: one working subscriber (id 7)
and one upstream link for session `s1`, empty database traces. -/
def c2Sys : SystemState :=
  { sse := { connections := [("s1", [⟨7, false⟩])],
             n8nConnections := [("s1", 1)], closedSources := [] },
    db := { sessions := [("s1", "Running")], statusWrites := [],
            logEntries := [] } }

/-- C2, as stated, is false: after a `control`/`COMPLETE` message for the
Running session `s1`, no status UPDATE has been executed and the stored
status is still `Running`, not `Completed` — only the broadcast and the
link release happen. -/
theorem c2_counterexample :
    (processUpstreamMessage c2Sys "s1" 1 "raw"
        (some ⟨some "control", some "COMPLETE"⟩)).1.db.statusWrites = [] ∧
    sessionFinalStatus
        (processUpstreamMessage c2Sys "s1" 1 "raw"
          (some ⟨some "control", some "COMPLETE"⟩)).1.db "s1"
      = some "Running" ∧
    (processUpstreamMessage c2Sys "s1" 1 "raw"
        (some ⟨some "control", some "COMPLETE"⟩)).2
      = [⟨7, "complete", SSEData.statusObj "Completed"⟩] :=
  ⟨rfl, rfl, rfl⟩

/-- C2 amended: a `control` message with value COMPLETE broadcasts the
terminal `complete` notification (distinct from ordinary `log` events),
closes the upstream `EventSource` and removes it from the link map; the
stored session status and completion timestamp are not written. -/
theorem c2_complete_broadcasts_and_releases (sys : SystemState)
    (sessionId : String) (es : Nat) (raw : String) :
    processUpstreamMessage sys sessionId es raw
        (some ⟨some "control", some "COMPLETE"⟩)
      = ({ sse := { connections := sys.sse.connections,
                    n8nConnections :=
                      mapDelete sys.sse.n8nConnections sessionId,
                    closedSources := sys.sse.closedSources ++ [es] },
           db := sys.db },
         broadcast sys.sse sessionId "complete"
           (SSEData.statusObj "Completed")) :=
  rfl

/-- C3, as stated, is false: with a live link (source 1) for `s1`,
opening a second link (source 2) succeeds instead of failing with a
Conflict error, and the map entry now holds the new source — the
existing link was replaced, and source 1 was never closed. -/
theorem c3_counterexample :
    connectToN8nStream
        { connections := [], n8nConnections := [("s1", 1)],
          closedSources := [] } "s1" (.ok 2)
      = .ok { connections := [], n8nConnections := [("s1", 2)],
              closedSources := [] } :=
  rfl

/-- C3 amended: opening a second UpstreamLink for a session that already
has one succeeds and silently replaces the map entry with the new
source; the previous `EventSource` is neither kept nor closed
(`closedSources` is untouched by the open). -/
theorem c3_second_open_replaces_existing_link (st : SSEState)
    (sessionId : String) (es old : Nat)
    (_h : mapGet st.n8nConnections sessionId = some old) :
    connectToN8nStream st sessionId (.ok es)
      = .ok { st with
              n8nConnections := mapSet st.n8nConnections sessionId es } ∧
    mapGet (mapSet st.n8nConnections sessionId es) sessionId = some es :=
  ⟨rfl, mapGet_mapSet_self _ _ _⟩

/-- Witness for C3 on the concrete one-link state. -/
theorem c3_second_open_replaces_existing_link_witness :
    mapGet ([("s1", 1)] : List (String × Nat)) "s1" = some 1 ∧
    (connectToN8nStream
        { connections := [], n8nConnections := [("s1", 1)],
          closedSources := [] } "s1" (.ok 2)
      = .ok { connections := [], n8nConnections := mapSet [("s1", 1)] "s1" 2,
              closedSources := [] } ∧
     mapGet (mapSet [("s1", 1)] "s1" 2) "s1" = some 2) :=
  ⟨by decide,
   c3_second_open_replaces_existing_link
     { connections := [], n8nConnections := [("s1", 1)],
       closedSources := [] } "s1" 2 1 (by decide)⟩

/-- System state used to exercise claim C4: a Running session `s1` with
no active upstream link and empty write traces. -/
def c4Sys : SystemState :=
  { sse := { connections := [], n8nConnections := [], closedSources := [] },
    db := { sessions := [("s1", "Running")], statusWrites := [],
            logEntries := [] } }

/-- C4, as stated, is false: two `stopAgentRun` calls on `s1` execute two
`Cancelled` status UPDATEs and two user-cancellation log INSERTs, not one
of each. -/
theorem c4_counterexample :
    ¬ ((stopAgentRun (stopAgentRun c4Sys "s1") "s1").db.statusWrites.length = 1 ∧
       (stopAgentRun (stopAgentRun c4Sys "s1") "s1").db.logEntries.length = 1) ∧
    (stopAgentRun (stopAgentRun c4Sys "s1") "s1").db.statusWrites
      = [("s1", "Cancelled"), ("s1", "Cancelled")] ∧
    (stopAgentRun (stopAgentRun c4Sys "s1") "s1").db.logEntries
      = [("s1", "Info", "Agent run cancelled by user"),
         ("s1", "Info", "Agent run cancelled by user")] := by
  refine ⟨?_, rfl, rfl⟩
  decide

/-- C4 amended: every `stopAgentRun` call unconditionally appends one
`Cancelled` status write and one cancellation log line, so two calls
append two of each; neither call fails when the session has no active
link or is already terminal (the link-stop step is a no-op then and the
two writes are attempted regardless). -/
theorem c4_stop_twice_appends_two_writes (sys : SystemState)
    (sessionId : String) :
    (stopAgentRun (stopAgentRun sys sessionId) sessionId).db.statusWrites
      = sys.db.statusWrites ++
        [(sessionId, "Cancelled"), (sessionId, "Cancelled")] ∧
    (stopAgentRun (stopAgentRun sys sessionId) sessionId).db.logEntries
      = sys.db.logEntries ++
        [(sessionId, "Info", "Agent run cancelled by user"),
         (sessionId, "Info", "Agent run cancelled by user")] := by
  constructor <;> simp [stopAgentRun, updateSessionStatus, createLogEntry]

/-- Relay state used to exercise claim C5: one working subscriber (id 7)
and one upstream link for session `s1`, empty database traces. -/
def c5Sys : SystemState :=
  { sse := { connections := [("s1", [⟨7, false⟩])],
             n8nConnections := [("s1", 1)], closedSources := [] },
    db := { sessions := [("s1", "Running")], statusWrites := [],
            logEntries := [] } }

/-- C5, as stated, is false: on a transport-level error the subscriber
receives only the single Error-category `log` event — no terminal
`error` event is delivered — and the stored status remains `Running`
instead of becoming `Error`; only the link is closed. -/
theorem c5_counterexample :
    (processUpstreamError c5Sys "s1" 1).2
      = [⟨7, "log", SSEData.logEvent "Error"
          "Lost connection to workflow. The workflow may continue running on n8n."⟩] ∧
    (processUpstreamError c5Sys "s1" 1).1.db.statusWrites = [] ∧
    sessionFinalStatus (processUpstreamError c5Sys "s1" 1).1.db "s1"
      = some "Running" :=
  ⟨rfl, rfl, rfl⟩

/-- C5 amended: a transport-level error broadcasts exactly one
Error-category `log` event describing the lost connection and releases
the upstream link (close plus map removal); no terminal `error` event is
broadcast and the stored session status is untouched. -/
theorem c5_transport_error_logs_and_releases (sys : SystemState)
    (sessionId : String) (es : Nat) :
    processUpstreamError sys sessionId es
      = ({ sse := { connections := sys.sse.connections,
                    n8nConnections :=
                      mapDelete sys.sse.n8nConnections sessionId,
                    closedSources := sys.sse.closedSources ++ [es] },
           db := sys.db },
         broadcast sys.sse sessionId "log"
           (SSEData.logEvent LogType.Error.val
             "Lost connection to workflow. The workflow may continue running on n8n.")) :=
  rfl

/-- System state used to exercise claim C6: nothing registered yet. -/
def c6Sys : SystemState :=
  { sse := { connections := [], n8nConnections := [], closedSources := [] },
    db := { sessions := [], statusWrites := [], logEntries := [] } }

/-- C6, as stated, is false: when the trigger response has no `sseUrl`,
the caller does get an error (the generic webhook-failure message — the
catch-all in `triggerWebhook` replaces the invalid-response one) and no
link is opened, but the created session keeps its `Running` status — it
is never marked `Error`. -/
theorem c6_counterexample :
    (triggerAgent c6Sys true "My Agent" (some "s1")
        (.resolved (some ⟨none⟩)) (.ok 5)).2
      = .error "Failed to trigger n8n webhook" ∧
    sessionFinalStatus
        (triggerAgent c6Sys true "My Agent" (some "s1")
          (.resolved (some ⟨none⟩)) (.ok 5)).1.db "s1"
      = some "Running" ∧
    (triggerAgent c6Sys true "My Agent" (some "s1")
       (.resolved (some ⟨none⟩)) (.ok 5)).1.sse = c6Sys.sse :=
  ⟨rfl, rfl, rfl⟩

/-- C6 amended: a trigger response without a string `sseUrl` makes
`triggerAgent` return the generic `Failed to trigger n8n webhook` error
(the distinct invalid-response message is swallowed by the catch-all),
leaves the in-memory relay untouched so no UpstreamLink is ever opened,
and leaves the freshly created session row in status `Running` — it is
not marked `Error`. -/
theorem c6_missing_sseurl_leaves_session_running (sys : SystemState)
    (agentName sessionId : String) (newSource : Except String Nat)
    (body : Option N8nResponseData)
    (hbody : validateSseUrl body = .error invalidResponseMsg)
    (hW : sys.db.statusWrites.filterMap
        (fun p => if p.1 = sessionId then some p.2 else none) = [])
    (hS : mapGet sys.db.sessions sessionId = none) :
    triggerAgent sys true agentName (some sessionId) (.resolved body)
        newSource
      = ({ sse := sys.sse,
           db := { sys.db with
             sessions := sys.db.sessions ++ [(sessionId, "Running")] } },
         .error "Failed to trigger n8n webhook") ∧
    sessionFinalStatus
        { sys.db with
          sessions := sys.db.sessions ++ [(sessionId, "Running")] }
        sessionId
      = some "Running" := by
  constructor
  · simp [triggerAgent, triggerWebhook, hbody]
  · simp [sessionFinalStatus, hW, mapGet_append_of_none _ hS, mapGet]

/-- Witness for C6 on the empty system state. -/
theorem c6_missing_sseurl_leaves_session_running_witness :
    validateSseUrl (some ⟨none⟩) = .error invalidResponseMsg ∧
    c6Sys.db.statusWrites.filterMap
        (fun p => if p.1 = "s1" then some p.2 else none) = [] ∧
    mapGet c6Sys.db.sessions "s1" = none ∧
    (triggerAgent c6Sys true "My Agent" (some "s1")
        (.resolved (some ⟨none⟩)) (.ok 5)
      = ({ sse := c6Sys.sse,
           db := { c6Sys.db with
             sessions := c6Sys.db.sessions ++ [("s1", "Running")] } },
         .error "Failed to trigger n8n webhook") ∧
     sessionFinalStatus
        { c6Sys.db with
          sessions := c6Sys.db.sessions ++ [("s1", "Running")] } "s1"
      = some "Running") :=
  ⟨rfl, rfl, rfl,
   c6_missing_sseurl_leaves_session_running c6Sys "My Agent" "s1"
     (.ok 5) (some ⟨none⟩) rfl rfl rfl⟩

/-- C7: an undecodable upstream payload is not fatal — the relay state
(links and database included) is unchanged, and a subscriber with a
working channel that is attached exactly once observes exactly one `log`
event, of category Error, whose message contains the raw payload. -/
theorem c7_decode_failure_degrades_to_error_log (sys : SystemState)
    (sessionId : String) (es : Nat) (raw : String)
    (clients : List Client) (c : Client)
    (hcs : mapGet sys.sse.connections sessionId = some clients)
    (hc : clients.filter (fun x => x.id = c.id) = [c])
    (hf : c.writeFails = false) :
    (processUpstreamMessage sys sessionId es raw none).1 = sys ∧
    ((processUpstreamMessage sys sessionId es raw none).2.filter
        (fun d => d.clientId = c.id)
      = [⟨c.id, "log", SSEData.logEvent LogType.Error.val
          ("Failed to parse event: " ++ raw)⟩]) ∧
    (∃ pre post, "Failed to parse event: " ++ raw = pre ++ raw ++ post) := by
  refine ⟨rfl, ?_, ⟨"Failed to parse event: ", "", by simp⟩⟩
  have hne : ¬ clients.length = 0 := by
    intro h
    rw [List.length_eq_zero] at h
    rw [h] at hc
    simp at hc
  simp only [processUpstreamMessage, onmessageEffects, broadcast, hcs]
  rw [if_neg hne]
  exact flatMap_sendEvent_filter_single _ _ hc hf

/-- Witness for C7: subscriber 7 (working) next to subscriber 8 (whose
channel throws) observes exactly the one synthetic Error log. -/
theorem c7_decode_failure_degrades_to_error_log_witness :
    mapGet ([("s1", [⟨7, false⟩, ⟨8, true⟩])] :
        List (String × List Client)) "s1" = some [⟨7, false⟩, ⟨8, true⟩] ∧
    ([⟨7, false⟩, ⟨8, true⟩] : List Client).filter
        (fun x => x.id = (⟨7, false⟩ : Client).id) = [⟨7, false⟩] ∧
    (Client.writeFails ⟨7, false⟩ = false) ∧
    ((processUpstreamMessage
        { sse := { connections := [("s1", [⟨7, false⟩, ⟨8, true⟩])],
                   n8nConnections := [("s1", 1)], closedSources := [] },
          db := { sessions := [("s1", "Running")], statusWrites := [],
                  logEntries := [] } } "s1" 1 "it is not json" none).1
      = { sse := { connections := [("s1", [⟨7, false⟩, ⟨8, true⟩])],
                   n8nConnections := [("s1", 1)], closedSources := [] },
          db := { sessions := [("s1", "Running")], statusWrites := [],
                  logEntries := [] } } ∧
     ((processUpstreamMessage
        { sse := { connections := [("s1", [⟨7, false⟩, ⟨8, true⟩])],
                   n8nConnections := [("s1", 1)], closedSources := [] },
          db := { sessions := [("s1", "Running")], statusWrites := [],
                  logEntries := [] } } "s1" 1 "it is not json" none).2.filter
        (fun d => d.clientId = (⟨7, false⟩ : Client).id)
      = [⟨(⟨7, false⟩ : Client).id, "log", SSEData.logEvent LogType.Error.val
          ("Failed to parse event: " ++ "it is not json")⟩]) ∧
     (∃ pre post, "Failed to parse event: " ++ "it is not json"
        = pre ++ "it is not json" ++ post)) :=
  ⟨by decide, by decide, rfl,
   c7_decode_failure_degrades_to_error_log
     { sse := { connections := [("s1", [⟨7, false⟩, ⟨8, true⟩])],
                n8nConnections := [("s1", 1)], closedSources := [] },
       db := { sessions := [("s1", "Running")], statusWrites := [],
               logEntries := [] } }
     "s1" 1 "it is not json" [⟨7, false⟩, ⟨8, true⟩] ⟨7, false⟩
     (by decide) (by decide) rfl⟩

/-- Relay state used to exercise claim C8: one working subscriber (id 7)
and one live upstream link for session `s1`. -/
def c8Sys : SystemState :=
  { sse := { connections := [("s1", [⟨7, false⟩])],
             n8nConnections := [("s1", 1)], closedSources := [] },
    db := { sessions := [("s1", "Running")], statusWrites := [],
            logEntries := [] } }

/-- C8: a decoded message whose type is the `LogType.Control` enum value
(`'Control'`) with value COMPLETE is delivered verbatim to the subscriber
as an ordinary `log` event and the link stays open with no terminal
notification: the control branch compares against the lowercase literal
`'control'`, which no `LogType` value equals, so enum-cased Control
events pass the `Object.values(LogType)` forwarding check instead. -/
theorem c8_enum_control_forwarded_verbatim :
    (processUpstreamMessage c8Sys "s1" 1 "raw"
        (some ⟨some LogType.Control.val, some "COMPLETE"⟩)).2
      = [⟨7, "log", SSEData.forwarded ⟨some "Control", some "COMPLETE"⟩⟩] ∧
    (processUpstreamMessage c8Sys "s1" 1 "raw"
        (some ⟨some LogType.Control.val, some "COMPLETE"⟩)).1 = c8Sys :=
  ⟨rfl, rfl⟩

/-- C9: a failing subscriber channel is isolated — every attached client
whose channel works receives the broadcast event, whatever the other
channels do, and everything broadcast produces is a write of exactly the
given event to one of the attached clients (`broadcast` reads the
registry and performs channel writes only; it returns without touching
either map). -/
theorem c9_broadcast_isolates_channel_failures (st : SSEState)
    (sessionId eventType : String) (data : SSEData)
    (clients : List Client) (c : Client)
    (hcs : mapGet st.connections sessionId = some clients)
    (hc : c ∈ clients) (hf : c.writeFails = false) :
    (⟨c.id, eventType, data⟩ : Delivery) ∈
      broadcast st sessionId eventType data ∧
    ∀ d ∈ broadcast st sessionId eventType data,
      d.eventType = eventType ∧ d.data = data ∧
        d.clientId ∈ clients.map Client.id := by
  have hne : ¬ clients.length = 0 := by
    intro h
    rw [List.length_eq_zero] at h
    rw [h] at hc
    simp at hc
  constructor
  · simp only [broadcast, hcs]
    rw [if_neg hne]
    exact mem_flatMap_sendEvent eventType data hc hf
  · intro d hd
    simp only [broadcast, hcs] at hd
    rw [if_neg hne] at hd
    exact flatMap_sendEvent_shape eventType data hd

/-- Witness for C9: subscriber 7 receives the event even though
subscriber 8's channel throws, and all deliveries carry that event. -/
theorem c9_broadcast_isolates_channel_failures_witness :
    mapGet ([("s1", [⟨8, true⟩, ⟨7, false⟩])] :
        List (String × List Client)) "s1" = some [⟨8, true⟩, ⟨7, false⟩] ∧
    ((⟨7, false⟩ : Client) ∈ ([⟨8, true⟩, ⟨7, false⟩] : List Client)) ∧
    (Client.writeFails ⟨7, false⟩ = false) ∧
    ((⟨(⟨7, false⟩ : Client).id, "log",
        SSEData.logEvent "Info" "x"⟩ : Delivery) ∈
      broadcast
        { connections := [("s1", [⟨8, true⟩, ⟨7, false⟩])],
          n8nConnections := [], closedSources := [] }
        "s1" "log" (SSEData.logEvent "Info" "x") ∧
     ∀ d ∈ broadcast
        { connections := [("s1", [⟨8, true⟩, ⟨7, false⟩])],
          n8nConnections := [], closedSources := [] }
        "s1" "log" (SSEData.logEvent "Info" "x"),
       d.eventType = "log" ∧ d.data = SSEData.logEvent "Info" "x" ∧
         d.clientId ∈ ([⟨8, true⟩, ⟨7, false⟩] : List Client).map Client.id) :=
  ⟨by decide, by decide, rfl,
   c9_broadcast_isolates_channel_failures
     { connections := [("s1", [⟨8, true⟩, ⟨7, false⟩])],
       n8nConnections := [], closedSources := [] }
     "s1" "log" (SSEData.logEvent "Info" "x")
     [⟨8, true⟩, ⟨7, false⟩] ⟨7, false⟩ (by decide) (by decide) rfl⟩

/-- Property that no session entry of the registry holds an empty
subscriber set. -/
def noEmptyEntries (st : SSEState) : Prop :=
  ∀ p ∈ st.connections, p.2 ≠ []

instance (st : SSEState) : Decidable (noEmptyEntries st) :=
  inferInstanceAs (Decidable (∀ p ∈ st.connections, p.2 ≠ []))

/-- C10: `unsubscribe` preserves the no-empty-entry invariant (removing
the last subscriber deletes the session's entry outright, so
`getActiveSessionCount` counts exactly the sessions with at least one
attached subscriber), and when the deletion empties the set the session
key is gone from the map. -/
theorem c10_unsubscribe_never_leaves_empty_entry (st : SSEState)
    (sessionId : String) (c : Client) (hinv : noEmptyEntries st) :
    noEmptyEntries (unsubscribe st sessionId c) ∧
    ((unsubscribe st sessionId c).connections.filter
        (fun p => !p.2.isEmpty)).length
      = getActiveSessionCount (unsubscribe st sessionId c) ∧
    (∀ clients, mapGet st.connections sessionId = some clients →
      setDelete clients c = [] →
      mapGet (unsubscribe st sessionId c).connections sessionId = none) := by
  have hpres : noEmptyEntries (unsubscribe st sessionId c) := by
    unfold unsubscribe
    cases hg : mapGet st.connections sessionId with
    | none => exact hinv
    | some clients =>
      by_cases hl : (setDelete clients c).length = 0
      · simp only [hl, if_pos]
        intro p hp
        exact hinv p (mem_mapDelete hp)
      · simp only [hl, if_neg, ite_false]
        intro p hp
        rcases mem_mapSet hp with hp' | hp'
        · rw [hp']
          intro hnil
          exact hl (by rw [show setDelete clients c = [] from hnil]; rfl)
        · exact hinv p hp'
  refine ⟨hpres, ?_, ?_⟩
  · have hkeep : ∀ p ∈ (unsubscribe st sessionId c).connections,
        (!p.2.isEmpty) = true := by
      intro p hp
      have hne := hpres p hp
      cases hq : p.2 with
      | nil => exact absurd hq hne
      | cons a l => simp
    rw [List.filter_eq_self.mpr hkeep]
    rfl
  · intro clients hg hd
    simp only [unsubscribe, hg, hd, List.length_nil, if_pos]
    exact mapGet_mapDelete_self _ _

/-- Witness for C10: detaching the only subscriber of `s1` removes the
entry, keeps `s2` intact and leaves a map with no empty entry. -/
theorem c10_unsubscribe_never_leaves_empty_entry_witness :
    noEmptyEntries
      { connections := [("s1", [⟨7, false⟩]), ("s2", [⟨9, false⟩])],
        n8nConnections := [], closedSources := [] } ∧
    (noEmptyEntries
      (unsubscribe
        { connections := [("s1", [⟨7, false⟩]), ("s2", [⟨9, false⟩])],
          n8nConnections := [], closedSources := [] } "s1" ⟨7, false⟩) ∧
     ((unsubscribe
        { connections := [("s1", [⟨7, false⟩]), ("s2", [⟨9, false⟩])],
          n8nConnections := [], closedSources := [] } "s1"
        ⟨7, false⟩).connections.filter (fun p => !p.2.isEmpty)).length
      = getActiveSessionCount
          (unsubscribe
            { connections := [("s1", [⟨7, false⟩]), ("s2", [⟨9, false⟩])],
              n8nConnections := [], closedSources := [] } "s1" ⟨7, false⟩) ∧
     (∀ clients,
        mapGet
          ({ connections := [("s1", [⟨7, false⟩]), ("s2", [⟨9, false⟩])],
             n8nConnections := [], closedSources := [] } :
            SSEState).connections "s1" = some clients →
        setDelete clients ⟨7, false⟩ = [] →
        mapGet
          (unsubscribe
            { connections := [("s1", [⟨7, false⟩]), ("s2", [⟨9, false⟩])],
              n8nConnections := [], closedSources := [] } "s1"
            ⟨7, false⟩).connections "s1" = none)) :=
  ⟨by decide,
   c10_unsubscribe_never_leaves_empty_entry
     { connections := [("s1", [⟨7, false⟩]), ("s2", [⟨9, false⟩])],
       n8nConnections := [], closedSources := [] } "s1" ⟨7, false⟩
     (by decide)⟩

end N8nDashboard
